import Mathlib

/-!
Shallow embedding of the ZenOCR page-processing application
(`src/geminiService.ts` and `src/types.ts`): the OCR client
`extractTextFromImage`, the per-page pipeline (`performOcrOnPage`,
`processPdf`), the UI event handlers (`handleFileChange`, `handleRedo`,
`handleTextChange`) and the exporter (`downloadFullText`).

External effects are modelled as explicit parameters: the outcome of the
Gemini `generateContent` call, the outcome of rasterizing one page, and
the user's answer to `window.confirm`.  The React `setPages` functional
updates become pure functions on the page list, and `setStats` updates
become pure functions on the stats record.  A thrown JavaScript
exception propagating to a caller is modelled as `Except.error`.
-/

namespace ZenOCR

/-- Page status tags (source line 49). -/
inductive PageStatus
  | pending
  | rendering
  | processing
  | completed
  | error
deriving DecidableEq, Repr

/-- Per-page record (`GranularPageResult`, source lines 51-54):
`PageResult` from `types.ts` with the granular status and the optional
`originalExtractedText` field (`originalExtractedText?: string`). -/
structure GranularPageResult where
  pageNumber : Nat
  imageUrl : String
  extractedText : String
  originalExtractedText : Option String
  status : PageStatus
deriving DecidableEq, Repr

/-- Aggregate counters (`ProcessingStats` in `types.ts`). -/
structure ProcessingStats where
  totalPages : Nat
  processedPages : Nat
  isProcessing : Bool
deriving DecidableEq, Repr

/-- The two React state cells `pages` and `stats` (source lines 57-63). -/
structure AppState where
  pages : List GranularPageResult
  stats : ProcessingStats
deriving DecidableEq, Repr

/-- JavaScript falsiness of a `string | undefined` value: `undefined`
and the empty string are falsy (used by `if (!apiKey)` and by
`response.text || ...`). -/
def jsFalsy : Option String → Bool
  | none => true
  | some s => s.isEmpty

/-- Outcome of the external `ai.models.generateContent` call inside the
`try` block of `extractTextFromImage` (source lines 26-39): either it
resolves with `response.text` (a possibly missing or empty string) or it
throws with some message. -/
inductive OcrOutcome
  | success (text : Option String)
  | failure (message : String)
deriving DecidableEq, Repr

/-- `extractTextFromImage` (source lines 4-40).  `Except.error` models an
exception propagating to the caller: the missing-credential check at
lines 5-8 throws OUTSIDE the `try` block, while any error of the service
call itself is caught at lines 36-39 and converted into a RETURNED
string embedding the message. -/
def extractTextFromImage (apiKey : Option String) (call : OcrOutcome) : Except String String :=
  if jsFalsy apiKey then
    Except.error "API Key not found in environment"
  else
    match call with
    | OcrOutcome.success t => Except.ok (if jsFalsy t then "無法辨識文字" else t.getD "")
    | OcrOutcome.failure msg => Except.ok ("辨識出錯: " ++ msg)

/-- The ubiquitous mutation discipline of the source: every `setPages`
call has the shape `prev.map(p => p.pageNumber === n ? {...p, ...} : p)`,
replacing exactly the records whose `pageNumber` matches. -/
def updateByNumber (pages : List GranularPageResult) (n : Nat)
    (f : GranularPageResult → GranularPageResult) : List GranularPageResult :=
  pages.map fun p => if p.pageNumber = n then f p else p

/-- The fixed localized message written on the OCR rejection path of
`performOcrOnPage` (source line 87). -/
def ocrErrorMessage : String := "辨識過程中發生錯誤，請檢查網路連線或稍後再試。"

/-- First `setPages` of `performOcrOnPage` (source line 74): the matching
page moves to `processing` and its displayed text is erased. -/
def setProcessing (pages : List GranularPageResult) (pageNumber : Nat) : List GranularPageResult :=
  updateByNumber pages pageNumber fun p =>
    { p with status := PageStatus.processing, extractedText := "" }

/-- Second half of `performOcrOnPage` (source lines 76-88): settle the
page according to whether `extractTextFromImage` resolved with a string
(then `completed`) or threw (then `error` with the fixed message). -/
def ocrSettle (pages : List GranularPageResult) (pageNumber : Nat)
    (apiKey : Option String) (call : OcrOutcome) : List GranularPageResult :=
  match extractTextFromImage apiKey call with
  | Except.ok text =>
      updateByNumber pages pageNumber fun p =>
        { p with extractedText := text, originalExtractedText := some text,
                 status := PageStatus.completed }
  | Except.error _ =>
      updateByNumber pages pageNumber fun p =>
        { p with status := PageStatus.error, extractedText := ocrErrorMessage }

/-- `performOcrOnPage` (source lines 73-89): reset the page to
`processing` with empty text, then settle it from the OCR result. -/
def performOcrOnPage (pages : List GranularPageResult) (pageNumber : Nat)
    (apiKey : Option String) (call : OcrOutcome) : List GranularPageResult :=
  ocrSettle (setProcessing pages pageNumber) pageNumber apiKey call

/-- `setPages` marking page `i` as `rendering` (source line 121). -/
def setRendering (pages : List GranularPageResult) (pageNumber : Nat) : List GranularPageResult :=
  updateByNumber pages pageNumber fun p => { p with status := PageStatus.rendering }

/-- `setPages` storing the rendered data URL and moving the page to
`processing` (source line 135). -/
def setImageProcessing (pages : List GranularPageResult) (pageNumber : Nat)
    (url : String) : List GranularPageResult :=
  updateByNumber pages pageNumber fun p =>
    { p with imageUrl := url, status := PageStatus.processing }

/-- Outcome of rasterizing one page in the loop body (source lines
123-133): a data URL, or `canvas.getContext('2d')` returning null
(the `if (!context) continue;` path at line 127), or `getPage` /
`render` throwing (which the outer catch at lines 140-143 absorbs). -/
inductive RenderOutcome
  | ok (imageUrl : String)
  | noContext
  | raise (message : String)

/-- Environment of one `processPdf` run: the credential visible to the
OCR client and, per page number, the rendering outcome and the outcome
of the Gemini call for that page. -/
structure PipelineEnv where
  apiKey : Option String
  render : Nat → RenderOutcome
  ocr : Nat → OcrOutcome

/-- The pre-populated `pending` records (source lines 112-118). -/
def initialPages (total : Nat) : List GranularPageResult :=
  (List.range total).map fun i =>
    { pageNumber := i + 1, imageUrl := "", extractedText := "",
      originalExtractedText := none, status := PageStatus.pending }

/-- The `for (let i = 1; i <= total; i++)` loop of `processPdf` (source
lines 120-139), processing pages `i, i+1, ...` while `rem` pages remain.
A `raise` outcome aborts the remaining iterations (the exception
propagates to the catch block); `noContext` skips the rest of the
iteration body, leaving the page in `rendering` and NOT updating
`processedPages`; otherwise the page is given its image, OCR runs, and
`processedPages` is set to `i`. -/
def runPages (env : PipelineEnv) : AppState → Nat → Nat → AppState
  | s, _, 0 => s
  | s, i, rem + 1 =>
    let pages1 := setRendering s.pages i
    match env.render i with
    | RenderOutcome.raise _ => { s with pages := pages1 }
    | RenderOutcome.noContext => runPages env { s with pages := pages1 } (i + 1) rem
    | RenderOutcome.ok url =>
        let pages2 := setImageProcessing pages1 i url
        let pages3 := performOcrOnPage pages2 i env.apiKey (env.ocr i)
        runPages env { pages := pages3, stats := { s.stats with processedPages := i } }
          (i + 1) rem

/-- `processPdf` after the document decoded to `total` pages (source
lines 98-145): reset stats and pages, record `totalPages`, materialize
the pending records, run the loop, and finally clear `isProcessing`. -/
def processPdf (env : PipelineEnv) (total : Nat) : AppState :=
  let s1 : AppState :=
    { pages := initialPages total,
      stats := { totalPages := total, processedPages := 0, isProcessing := true } }
  let s2 := runPages env s1 1 total
  { s2 with stats := { s2.stats with isProcessing := false } }

/-- Alert text of the file-type guard (source line 154). -/
def pdfTypeAlert : String := "請選擇正確的 PDF 檔案格式。"

/-- Alert text of the pdf.js-not-loaded guard (source line 94). -/
def pdfLibAlert : String := "PDF 解析庫尚未加載完成，請稍候。"

/-- The selected file, reduced to the field the handler inspects. -/
structure FileInput where
  fileType : String
deriving DecidableEq, Repr

/-- Synchronous prefix of `processPdf` as observed by `handleFileChange`
(source lines 91-99): if pdf.js is unavailable, alert and change
nothing; otherwise reset the stats and clear the page list (the rest of
`processPdf` happens later, inside the FileReader callback).  The
returned `Option String` is the alert shown, if any. -/
def processPdfStart (libLoaded : Bool) (s : AppState) : AppState × Option String :=
  if libLoaded then
    ({ pages := [],
       stats := { totalPages := 0, processedPages := 0, isProcessing := true } }, none)
  else (s, some pdfLibAlert)

/-- `handleFileChange` of the App revision WITH the file-type guard
(source lines 150-159). -/
def handleFileChange (libLoaded : Bool) (s : AppState) (file : Option FileInput) :
    AppState × Option String :=
  match file with
  | none => (s, none)
  | some f =>
      if f.fileType ≠ "application/pdf" then (s, some pdfTypeAlert)
      else processPdfStart libLoaded s

/-- `handleFileChange` of the other App revision (source lines 596-601):
no file-type validation; any selected file goes straight to `processPdf`,
whose synchronous prefix (source lines 542-543) resets stats and clears
the page list. -/
def handleFileChangeAlt (s : AppState) (file : Option FileInput) : AppState × Option String :=
  match file with
  | none => (s, none)
  | some _ =>
      ({ pages := [],
         stats := { totalPages := 0, processedPages := 0, isProcessing := true } }, none)

/-- Page-list effect of `handleRedo` (source lines 161-171).  The first
guard returns when `imageUrl` is falsy; the confirmation dialog is shown
only when the text was hand-edited AND the status is `completed`, and a
declined confirmation returns without any mutation.  `userConfirms` is
the oracle for what `window.confirm` would answer. -/
def handleRedoPages (pages : List GranularPageResult) (page : GranularPageResult)
    (userConfirms : Bool) (apiKey : Option String) (call : OcrOutcome) :
    List GranularPageResult :=
  if page.imageUrl = "" then pages
  else if some page.extractedText ≠ page.originalExtractedText ∧
           page.status = PageStatus.completed ∧ userConfirms = false then pages
  else performOcrOnPage pages page.pageNumber apiKey call

/-- `handleRedo` at the state level: it only ever calls `setPages`
(through `performOcrOnPage`), never `setStats`. -/
def handleRedo (s : AppState) (page : GranularPageResult) (userConfirms : Bool)
    (apiKey : Option String) (call : OcrOutcome) : AppState :=
  { s with pages := handleRedoPages s.pages page userConfirms apiKey call }

/-- Whether `handleRedo` would show the `window.confirm` dialog (source
lines 164-166): only reached when `imageUrl` is truthy, and shown iff
the text differs from `originalExtractedText` and status is
`completed`. -/
def redoAsksConfirm (page : GranularPageResult) : Bool :=
  decide (page.imageUrl ≠ "" ∧ some page.extractedText ≠ page.originalExtractedText ∧
          page.status = PageStatus.completed)

/-- `handleTextChange` (source lines 173-175). -/
def handleTextChange (pages : List GranularPageResult) (pageNumber : Nat)
    (newText : String) : List GranularPageResult :=
  updateByNumber pages pageNumber fun p => { p with extractedText := newText }

/-- The `[該頁辨識失敗]` placeholder of the txt export (source line 186). -/
def txtFailureTag : String := "[該頁辨識失敗]"

/-- One page's section of the txt export (source lines 184-188),
including the JavaScript truthiness test
`page.status === 'completed' || page.extractedText`. -/
def txtSection (page : GranularPageResult) : String :=
  "\n第 " ++ toString page.pageNumber ++ " 頁\n" ++
  (if page.status = PageStatus.completed ∨ page.extractedText ≠ "" then
    page.extractedText
  else txtFailureTag) ++
  "\n--------------------\n"

/-- The txt export of `downloadFullText` (source lines 182-188): header
line plus one section per page, in store order. -/
def exportTxt (pages : List GranularPageResult) : String :=
  "== ZenOCR 提取結果 ==\n" ++ String.join (pages.map txtSection)

/-- Serialization of a status tag, as `JSON.stringify` renders the
string union values. -/
def statusString : PageStatus → String
  | PageStatus.pending => "pending"
  | PageStatus.rendering => "rendering"
  | PageStatus.processing => "processing"
  | PageStatus.completed => "completed"
  | PageStatus.error => "error"

/-- One element of the `jsonData` array built by the json branch of
`downloadFullText` (source lines 199-203): the object
`{page, status, content}`, with `content` null unless the page is
completed or has non-empty text.  Parsing the `JSON.stringify` output
back recovers exactly this list. -/
structure JsonEntry where
  page : Nat
  status : String
  content : Option String
deriving DecidableEq, Repr

/-- The json export data of `downloadFullText` (source lines 198-204). -/
def exportJsonData (pages : List GranularPageResult) : List JsonEntry :=
  pages.map fun p =>
    { page := p.pageNumber, status := statusString p.status,
      content := if p.status = PageStatus.completed ∨ p.extractedText ≠ "" then
          some p.extractedText
        else none }

/-- The operations that ever touch the page list, for stating store-wide
invariants: the three pipeline `setPages` updates, the OCR settle step,
the user text edit, and redo. -/
inductive AppOp
  | rendering (n : Nat)
  | image (n : Nat) (url : String)
  | ocr (n : Nat) (apiKey : Option String) (call : OcrOutcome)
  | edit (n : Nat) (newText : String)
  | redo (page : GranularPageResult) (userConfirms : Bool) (apiKey : Option String)
      (call : OcrOutcome)

/-- Apply one operation to the page list. -/
def opApply (pages : List GranularPageResult) : AppOp → List GranularPageResult
  | AppOp.rendering n => setRendering pages n
  | AppOp.image n url => setImageProcessing pages n url
  | AppOp.ocr n apiKey call => performOcrOnPage pages n apiKey call
  | AppOp.edit n newText => handleTextChange pages n newText
  | AppOp.redo page userConfirms apiKey call =>
      handleRedoPages pages page userConfirms apiKey call

/-- Sample store matching the export round-trip scenario of the spec:
page 1 completed with text `完成文字`, page 2 errored with empty text. -/
def c4Store : List GranularPageResult :=
  [{ pageNumber := 1, imageUrl := "data:1", extractedText := "完成文字",
     originalExtractedText := some "完成文字", status := PageStatus.completed },
   { pageNumber := 2, imageUrl := "data:2", extractedText := "",
     originalExtractedText := none, status := PageStatus.error }]

/-- A pipeline environment whose rendering never obtains a canvas
context, exercising the `if (!context) continue;` path. -/
def noContextEnv : PipelineEnv :=
  { apiKey := some "key", render := fun _ => RenderOutcome.noContext,
    ocr := fun _ => OcrOutcome.success (some "text") }

/-- A one-page store whose page is mid-OCR. -/
def procStore : List GranularPageResult :=
  [{ pageNumber := 1, imageUrl := "data:a", extractedText := "",
     originalExtractedText := none, status := PageStatus.processing }]

/-- A completed page whose text is still exactly what OCR produced. -/
def cleanPage : GranularPageResult :=
  { pageNumber := 1, imageUrl := "data:p1", extractedText := "原始文字",
    originalExtractedText := some "原始文字", status := PageStatus.completed }

/-- A completed page whose text the user has hand-edited. -/
def editedPage : GranularPageResult :=
  { pageNumber := 2, imageUrl := "data:p2", extractedText := "手動修改",
    originalExtractedText := some "原始文字", status := PageStatus.completed }

/-- A two-page state holding `cleanPage` and `editedPage`. -/
def twoPageState : AppState :=
  { pages := [cleanPage, editedPage],
    stats := { totalPages := 2, processedPages := 2, isProcessing := false } }

/-- A sample successful OCR outcome. -/
def sampleCall : OcrOutcome := OcrOutcome.success (some "新文字")

/-- A pipeline environment where every page renders fine; page 1's OCR
call resolves, page 2's throws inside the service call. -/
def allOkEnv : PipelineEnv :=
  { apiKey := some "key", render := fun _ => RenderOutcome.ok "data:u",
    ocr := fun n => if n = 1 then OcrOutcome.success (some "第一頁") else
      OcrOutcome.failure "boom" }

/-- A one-page settled state, as left behind by a finished run. -/
def settledState : AppState :=
  { pages := [{ pageNumber := 1, imageUrl := "data:1", extractedText := "內容",
                originalExtractedText := some "內容", status := PageStatus.completed }],
    stats := { totalPages := 1, processedPages := 1, isProcessing := false } }

/-! ### Basic lemmas about the `setPages` update pattern -/

theorem length_updateByNumber (pages : List GranularPageResult) (n : Nat)
    (f : GranularPageResult → GranularPageResult) :
    (updateByNumber pages n f).length = pages.length := by
  simp [updateByNumber]

theorem getElem?_updateByNumber {pages : List GranularPageResult} {i : Nat}
    {q : GranularPageResult} (n : Nat) (f : GranularPageResult → GranularPageResult)
    (h : pages[i]? = some q) :
    (updateByNumber pages n f)[i]? = some (if q.pageNumber = n then f q else q) := by
  simp [updateByNumber, List.getElem?_map, h]

theorem map_pageNumber_updateByNumber (pages : List GranularPageResult) (n : Nat)
    (f : GranularPageResult → GranularPageResult)
    (hf : ∀ p, (f p).pageNumber = p.pageNumber) :
    (updateByNumber pages n f).map (fun p => p.pageNumber) =
      pages.map fun p => p.pageNumber := by
  induction pages with
  | nil => rfl
  | cons a l ih =>
      simp only [updateByNumber, List.map_cons] at ih ⊢
      by_cases h : a.pageNumber = n <;> simp [h, hf, ih]

theorem mem_updateByNumber {pages : List GranularPageResult} {n : Nat}
    {f : GranularPageResult → GranularPageResult} {p : GranularPageResult}
    (hp : p ∈ updateByNumber pages n f) :
    ∃ q ∈ pages, p = if q.pageNumber = n then f q else q := by
  rcases List.mem_map.1 hp with ⟨q, hq, h⟩
  exact ⟨q, hq, h.symm⟩

/-! ### Lemmas about `performOcrOnPage` -/

theorem performOcrOnPage_length (pages : List GranularPageResult) (n : Nat)
    (k : Option String) (c : OcrOutcome) :
    (performOcrOnPage pages n k c).length = pages.length := by
  cases hx : extractTextFromImage k c <;>
    simp [performOcrOnPage, ocrSettle, hx, setProcessing, length_updateByNumber]

theorem getElem?_performOcrOnPage_ne {pages : List GranularPageResult} {i : Nat}
    {q : GranularPageResult} {n : Nat} {k : Option String} {c : OcrOutcome}
    (h : pages[i]? = some q) (hne : q.pageNumber ≠ n) :
    (performOcrOnPage pages n k c)[i]? = some q := by
  have h1 : (setProcessing pages n)[i]? = some q := by
    simp only [setProcessing]
    rw [getElem?_updateByNumber n _ h, if_neg hne]
  cases hx : extractTextFromImage k c <;>
    simp only [performOcrOnPage, ocrSettle, hx] <;>
    rw [getElem?_updateByNumber n _ h1, if_neg hne]

theorem getElem?_performOcrOnPage_ok {pages : List GranularPageResult} {i : Nat}
    {q : GranularPageResult} {n : Nat} {k : Option String} {c : OcrOutcome} {text : String}
    (h : pages[i]? = some q) (heq : q.pageNumber = n)
    (hx : extractTextFromImage k c = Except.ok text) :
    (performOcrOnPage pages n k c)[i]? =
      some { q with extractedText := text, originalExtractedText := some text,
                    status := PageStatus.completed } := by
  have h1 : (setProcessing pages n)[i]? =
      some { q with status := PageStatus.processing, extractedText := "" } := by
    simp only [setProcessing]
    rw [getElem?_updateByNumber n _ h, if_pos heq]
  simp only [performOcrOnPage, ocrSettle, hx]
  rw [getElem?_updateByNumber n _ h1, if_pos heq]

theorem getElem?_performOcrOnPage_err {pages : List GranularPageResult} {i : Nat}
    {q : GranularPageResult} {n : Nat} {k : Option String} {c : OcrOutcome} {e : String}
    (h : pages[i]? = some q) (heq : q.pageNumber = n)
    (hx : extractTextFromImage k c = Except.error e) :
    (performOcrOnPage pages n k c)[i]? =
      some { q with status := PageStatus.error, extractedText := ocrErrorMessage } := by
  have h1 : (setProcessing pages n)[i]? =
      some { q with status := PageStatus.processing, extractedText := "" } := by
    simp only [setProcessing]
    rw [getElem?_updateByNumber n _ h, if_pos heq]
  simp only [performOcrOnPage, ocrSettle, hx]
  rw [getElem?_updateByNumber n _ h1, if_pos heq]

theorem map_pageNumber_setProcessing (pages : List GranularPageResult) (n : Nat) :
    (setProcessing pages n).map (fun p => p.pageNumber) = pages.map fun p => p.pageNumber :=
  map_pageNumber_updateByNumber pages n _ fun _ => rfl

theorem map_pageNumber_performOcrOnPage (pages : List GranularPageResult) (n : Nat)
    (k : Option String) (c : OcrOutcome) :
    (performOcrOnPage pages n k c).map (fun p => p.pageNumber) =
      pages.map fun p => p.pageNumber := by
  cases hx : extractTextFromImage k c <;>
    simp only [performOcrOnPage, ocrSettle, hx] <;>
    refine Eq.trans (map_pageNumber_updateByNumber _ _ _ ?_)
      (map_pageNumber_setProcessing pages n) <;>
    exact fun _ => rfl

theorem mem_performOcrOnPage {pages : List GranularPageResult} {n : Nat}
    {k : Option String} {c : OcrOutcome} {p : GranularPageResult}
    (hp : p ∈ performOcrOnPage pages n k c) :
    (p.pageNumber = n ∧ (p.status = PageStatus.completed ∨ p.status = PageStatus.error)) ∨
    (p ∈ pages ∧ p.pageNumber ≠ n) := by
  cases hx : extractTextFromImage k c <;> simp only [performOcrOnPage, ocrSettle, hx] at hp <;>
  · rcases mem_updateByNumber hp with ⟨q1, hq1, rfl⟩
    rcases mem_updateByNumber (by simpa [setProcessing] using hq1) with ⟨q2, hq2, rfl⟩
    by_cases h : q2.pageNumber = n
    · left; simp [h]
    · right; simpa [h] using hq2

theorem mem_updateByNumber_of_ne {pages : List GranularPageResult} {n : Nat}
    {f : GranularPageResult → GranularPageResult} {p : GranularPageResult}
    (hp : p ∈ updateByNumber pages n f) (hf : ∀ q, (f q).pageNumber = q.pageNumber)
    (hne : p.pageNumber ≠ n) : p ∈ pages := by
  rcases mem_updateByNumber hp with ⟨q, hq, hpq⟩
  by_cases h : q.pageNumber = n
  · rw [if_pos h] at hpq
    exact absurd (by rw [hpq]; exact (hf q).trans h) hne
  · rw [if_neg h] at hpq
    exact hpq ▸ hq

/-! ### Lemmas about the pipeline loop -/

theorem map_pageNumber_setRendering (pages : List GranularPageResult) (n : Nat) :
    (setRendering pages n).map (fun p => p.pageNumber) = pages.map fun p => p.pageNumber := by
  simp only [setRendering]
  refine map_pageNumber_updateByNumber _ _ _ ?_
  exact fun _ => rfl

theorem map_pageNumber_setImageProcessing (pages : List GranularPageResult) (n : Nat)
    (url : String) :
    (setImageProcessing pages n url).map (fun p => p.pageNumber) =
      pages.map fun p => p.pageNumber := by
  simp only [setImageProcessing]
  refine map_pageNumber_updateByNumber _ _ _ ?_
  exact fun _ => rfl

theorem map_pageNumber_handleTextChange (pages : List GranularPageResult) (n : Nat)
    (t : String) :
    (handleTextChange pages n t).map (fun p => p.pageNumber) =
      pages.map fun p => p.pageNumber := by
  simp only [handleTextChange]
  refine map_pageNumber_updateByNumber _ _ _ ?_
  exact fun _ => rfl

theorem runPages_stats_frame (env : PipelineEnv) : ∀ (rem i : Nat) (s : AppState),
    (runPages env s i rem).stats.totalPages = s.stats.totalPages ∧
    (runPages env s i rem).stats.isProcessing = s.stats.isProcessing := by
  intro rem
  induction rem with
  | zero => intro i s; exact ⟨rfl, rfl⟩
  | succ r ih =>
      intro i s
      simp only [runPages]
      cases env.render i with
      | raise m => exact ⟨rfl, rfl⟩
      | noContext => exact ih (i + 1) _
      | ok url => exact ih (i + 1) _

theorem runPages_map_pageNumber (env : PipelineEnv) : ∀ (rem i : Nat) (s : AppState),
    (runPages env s i rem).pages.map (fun p => p.pageNumber) =
      s.pages.map fun p => p.pageNumber := by
  intro rem
  induction rem with
  | zero => intro i s; rfl
  | succ r ih =>
      intro i s
      simp only [runPages]
      cases env.render i with
      | raise m => exact map_pageNumber_setRendering s.pages i
      | noContext => exact (ih (i + 1) _).trans (map_pageNumber_setRendering s.pages i)
      | ok url =>
          refine (ih (i + 1) _).trans ?_
          rw [map_pageNumber_performOcrOnPage, map_pageNumber_setImageProcessing,
              map_pageNumber_setRendering]

theorem runPages_processedPages (env : PipelineEnv) : ∀ (rem i : Nat) (s : AppState),
    0 < rem →
    (∀ j, i ≤ j → j < i + rem → ∃ url, env.render j = RenderOutcome.ok url) →
    (runPages env s i rem).stats.processedPages = i + rem - 1 := by
  intro rem
  induction rem with
  | zero => intro i s h _; exact (Nat.lt_irrefl 0 h).elim
  | succ r ih =>
      intro i s _ hr
      obtain ⟨url, hurl⟩ := hr i le_rfl (by omega)
      simp only [runPages, hurl]
      rcases Nat.eq_zero_or_pos r with h0 | hpos
      · subst h0
        simp [runPages]
      · have hsh : ∀ j, i + 1 ≤ j → j < i + 1 + r → ∃ u, env.render j = RenderOutcome.ok u :=
          fun j hj1 hj2 => hr j (by omega) (by omega)
        rw [ih (i + 1) _ hpos hsh]
        omega

theorem runPages_status (env : PipelineEnv) : ∀ (rem i : Nat) (s : AppState),
    (∀ j, i ≤ j → j < i + rem → ∃ url, env.render j = RenderOutcome.ok url) →
    (∀ p, p ∈ s.pages → p.pageNumber < i →
        p.status = PageStatus.completed ∨ p.status = PageStatus.error) →
    ∀ p, p ∈ (runPages env s i rem).pages → p.pageNumber < i + rem →
      p.status = PageStatus.completed ∨ p.status = PageStatus.error := by
  intro rem
  induction rem with
  | zero => intro i s _ hinv p hp hlt; exact hinv p hp (by simpa using hlt)
  | succ r ih =>
      intro i s hr hinv p hp hlt
      obtain ⟨url, hurl⟩ := hr i le_rfl (by omega)
      simp only [runPages, hurl] at hp
      refine ih (i + 1) _ (fun j hj1 hj2 => hr j (by omega) (by omega)) ?_ p hp (by omega)
      intro p' hp' hlt'
      rcases mem_performOcrOnPage hp' with ⟨_, hs⟩ | ⟨hmem, hne⟩
      · exact hs
      · have hmem' : p' ∈ updateByNumber (setRendering s.pages i) i
            (fun p => { p with imageUrl := url, status := PageStatus.processing }) := by
          simpa [setImageProcessing] using hmem
        have h3 : p' ∈ setRendering s.pages i :=
          mem_updateByNumber_of_ne hmem' (fun _ => rfl) hne
        have h3' : p' ∈ updateByNumber s.pages i
            (fun p => { p with status := PageStatus.rendering }) := by
          simpa [setRendering] using h3
        have h4 : p' ∈ s.pages := mem_updateByNumber_of_ne h3' (fun _ => rfl) hne
        exact hinv p' h4 (by omega)

theorem map_pageNumber_initialPages (total : Nat) :
    (initialPages total).map (fun p => p.pageNumber) = (List.range total).map fun i => i + 1 := by
  simp [initialPages, List.map_map]

theorem map_pageNumber_handleRedoPages (pages : List GranularPageResult)
    (page : GranularPageResult) (c : Bool) (k : Option String) (call : OcrOutcome) :
    (handleRedoPages pages page c k call).map (fun p => p.pageNumber) =
      pages.map fun p => p.pageNumber := by
  unfold handleRedoPages
  split_ifs
  · rfl
  · rfl
  · exact map_pageNumber_performOcrOnPage pages page.pageNumber k call

theorem map_pageNumber_opApply (pages : List GranularPageResult) (op : AppOp) :
    (opApply pages op).map (fun p => p.pageNumber) = pages.map fun p => p.pageNumber := by
  cases op with
  | rendering n => exact map_pageNumber_setRendering pages n
  | image n url => exact map_pageNumber_setImageProcessing pages n url
  | ocr n k call => exact map_pageNumber_performOcrOnPage pages n k call
  | edit n t => exact map_pageNumber_handleTextChange pages n t
  | redo page c k call => exact map_pageNumber_handleRedoPages pages page c k call

theorem map_pageNumber_foldl_opApply : ∀ (ops : List AppOp) (pages : List GranularPageResult),
    ((ops.foldl opApply pages).map fun p => p.pageNumber) = pages.map fun p => p.pageNumber := by
  intro ops
  induction ops with
  | nil => intro pages; rfl
  | cons op ops ih =>
      intro pages
      rw [List.foldl_cons, ih, map_pageNumber_opApply]

/-! ### The claims -/

/-- Claim C1, counterexample: with the API credential absent, the OCR
client does NOT return an error-indicator string — the missing-credential
check throws to the caller before the `try` block is entered, even though
the service call itself would have been the error.  This refutes "for
every input image and every error condition (missing credential, ...) it
returns a human-readable string ... in particular, when the API
credential is absent it still returns an error-indicator string." -/
theorem claim_C1_counterexample :
    extractTextFromImage none (OcrOutcome.failure "network down") =
      Except.error "API Key not found in environment" := rfl

/-- Claim C1, amended: when the credential is present (non-empty), the
client never raises — every call outcome yields a returned string, and a
service/network failure yields a string embedding the error cause; when
the credential is absent or empty, the client instead throws
`API Key not found in environment` to its caller. -/
theorem claim_C1_client_failure_semantics (key : Option String) (call : OcrOutcome) :
    (jsFalsy key = true →
       extractTextFromImage key call = Except.error "API Key not found in environment") ∧
    (jsFalsy key = false →
       (∃ t, extractTextFromImage key call = Except.ok t) ∧
       ∀ m, call = OcrOutcome.failure m →
         extractTextFromImage key call = Except.ok ("辨識出錯: " ++ m)) := by
  constructor
  · intro hk
    simp [extractTextFromImage, hk]
  · intro hk
    constructor
    · cases call with
      | success t =>
          refine ⟨if jsFalsy t then "無法辨識文字" else t.getD "", ?_⟩
          simp [extractTextFromImage, hk]
      | failure m =>
          refine ⟨"辨識出錯: " ++ m, ?_⟩
          simp [extractTextFromImage, hk]
    · intro m hm
      subst hm
      simp [extractTextFromImage, hk]

/-- Witness for C1's amended theorem at concrete inputs: a missing
credential throws; a present credential turns a service failure into a
returned string embedding the cause. -/
theorem claim_C1_witness :
    extractTextFromImage none (OcrOutcome.success (some "x")) =
      Except.error "API Key not found in environment" ∧
    extractTextFromImage (some "key") (OcrOutcome.failure "boom") =
      Except.ok ("辨識出錯: boom") :=
  ⟨(claim_C1_client_failure_semantics none (OcrOutcome.success (some "x"))).1 rfl,
   ((claim_C1_client_failure_semantics (some "key") (OcrOutcome.failure "boom")).2 rfl).2
     "boom" rfl⟩

/-- Claim C2, counterexample: a network/service failure of the OCR call
does NOT drive the page to `status = error` with the fixed localized
message — `extractTextFromImage` catches it and RESOLVES with the string
`辨識出錯: ...`, so `performOcrOnPage` takes its success path and marks
the page `completed` with that string as its text. -/
theorem claim_C2_counterexample :
    ((performOcrOnPage procStore 1 (some "key")
        (OcrOutcome.failure "network unreachable")).map fun p => p.status) =
      [PageStatus.completed] ∧
    ((performOcrOnPage procStore 1 (some "key")
        (OcrOutcome.failure "network unreachable")).map fun p => p.extractedText) =
      ["辨識出錯: network unreachable"] :=
  ⟨rfl, rfl⟩

/-- Claim C2, amended: the record matching the page number follows the
resolve/reject behaviour of `extractTextFromImage`: if the call resolves
with a string (which includes network/service failures, converted to an
error-embedding string), `extractedText` and `originalExtractedText` are
both set to that string and `status` becomes `completed`; only if the
call throws (missing/empty credential) is `extractedText` set to the
fixed localized message with `status = error`. -/
theorem claim_C2_ocr_settlement :
    ∀ (pages : List GranularPageResult) (n : Nat) (key : Option String) (call : OcrOutcome)
      (i : Nat) (q : GranularPageResult),
      pages[i]? = some q → q.pageNumber = n →
      ((∀ text, extractTextFromImage key call = Except.ok text →
          (performOcrOnPage pages n key call)[i]? =
            some { q with extractedText := text, originalExtractedText := some text,
                          status := PageStatus.completed }) ∧
       (∀ e, extractTextFromImage key call = Except.error e →
          (performOcrOnPage pages n key call)[i]? =
            some { q with status := PageStatus.error, extractedText := ocrErrorMessage }) ∧
       (jsFalsy key = false → ∀ m, call = OcrOutcome.failure m →
          (performOcrOnPage pages n key call)[i]? =
            some { q with extractedText := "辨識出錯: " ++ m,
                          originalExtractedText := some ("辨識出錯: " ++ m),
                          status := PageStatus.completed })) := by
  intro pages n key call i q h heq
  refine ⟨fun text hx => getElem?_performOcrOnPage_ok h heq hx,
          fun e hx => getElem?_performOcrOnPage_err h heq hx,
          fun hkey m hcall => ?_⟩
  have hx : extractTextFromImage key call = Except.ok ("辨識出錯: " ++ m) := by
    subst hcall
    simp [extractTextFromImage, hkey]
  exact getElem?_performOcrOnPage_ok h heq hx

/-- Witness for C2's amended theorem: with a present credential and a
service failure, the single page of `procStore` ends `completed` with the
error-embedding string as its text. -/
theorem claim_C2_witness :
    (performOcrOnPage procStore 1 (some "key") (OcrOutcome.failure "boom"))[0]? =
      some { pageNumber := 1, imageUrl := "data:a", extractedText := "辨識出錯: boom",
             originalExtractedText := some "辨識出錯: boom",
             status := PageStatus.completed } :=
  (claim_C2_ocr_settlement procStore 1 (some "key") (OcrOutcome.failure "boom") 0
      { pageNumber := 1, imageUrl := "data:a", extractedText := "",
        originalExtractedText := none, status := PageStatus.processing }
      rfl rfl).2.2 rfl "boom" rfl

/-- Claim C3, counterexample: a one-page document whose canvas context is
unavailable takes the `if (!context) continue;` path, so after the loop
the page is still in `rendering` (neither `completed` nor `error`) and
`processedPages` is 0, not 1. -/
theorem claim_C3_counterexample :
    (processPdf noContextEnv 1).stats.processedPages = 0 ∧
    ((processPdf noContextEnv 1).pages.map fun p => p.status) = [PageStatus.rendering] :=
  ⟨rfl, rfl⟩

/-- Claim C3, amended: provided every page's rendering context is
obtained (no page hits the silent-skip path), after the pipeline loop
completes `processedPages = N` and every PageRecord's status is
`completed` or `error`. -/
theorem claim_C3_pipeline_completion (env : PipelineEnv) (total : Nat)
    (hr : ∀ j, 1 ≤ j → j ≤ total → ∃ url, env.render j = RenderOutcome.ok url) :
    (processPdf env total).stats.processedPages = total ∧
    ∀ p, p ∈ (processPdf env total).pages →
      p.status = PageStatus.completed ∨ p.status = PageStatus.error := by
  constructor
  · rcases Nat.eq_zero_or_pos total with h0 | hpos
    · subst h0; rfl
    · have h := runPages_processedPages env total 1
        { pages := initialPages total,
          stats := { totalPages := total, processedPages := 0, isProcessing := true } }
        hpos (fun j hj1 hj2 => hr j hj1 (by omega))
      exact h.trans (by omega)
  · intro p hp
    have hp' : p ∈ (runPages env
        { pages := initialPages total,
          stats := { totalPages := total, processedPages := 0, isProcessing := true } }
        1 total).pages := hp
    have hlt : p.pageNumber < 1 + total := by
      have h1 : p.pageNumber ∈ (runPages env
          { pages := initialPages total,
            stats := { totalPages := total, processedPages := 0, isProcessing := true } }
          1 total).pages.map (fun q => q.pageNumber) :=
        List.mem_map_of_mem _ hp'
      rw [runPages_map_pageNumber env total 1] at h1
      have h2 : p.pageNumber ∈ (List.range total).map fun i => i + 1 := by
        rw [← map_pageNumber_initialPages total]
        exact h1
      rcases List.mem_map.1 h2 with ⟨k, hk, hkeq⟩
      have := List.mem_range.1 hk
      omega
    refine runPages_status env total 1 _ (fun j hj1 hj2 => hr j hj1 (by omega)) ?_ p hp' hlt
    intro p' hp'' hlt'
    exfalso
    have h2 : p'.pageNumber ∈ (List.range total).map fun i => i + 1 := by
      rw [← map_pageNumber_initialPages total]
      exact List.mem_map_of_mem _ hp''
    rcases List.mem_map.1 h2 with ⟨k, hk, hkeq⟩
    omega

/-- Witness for C3's amended theorem: a two-page run in which both pages
render fine ends with both pages processed. -/
theorem claim_C3_witness :
    (processPdf allOkEnv 2).stats.processedPages = 2 :=
  (claim_C3_pipeline_completion allOkEnv 2 (fun _ _ _ => ⟨"data:u", rfl⟩)).1

/-- Claim C7 (confirmed): no page-list operation (pipeline updates, OCR
settlement, redo, text edit) ever changes the list of page numbers, and
after any sequence of operations starting from a freshly materialized
`N`-page document the page numbers are exactly `1..N`, each once, in
strictly ascending order. -/
theorem claim_C7_page_numbers :
    (∀ (pages : List GranularPageResult) (op : AppOp),
       (opApply pages op).map (fun p => p.pageNumber) = pages.map fun p => p.pageNumber) ∧
    ∀ (total : Nat) (ops : List AppOp),
      ((ops.foldl opApply (initialPages total)).map fun p => p.pageNumber) =
        (List.range total).map (fun i => i + 1) ∧
      List.Pairwise (fun a b => a < b)
        ((ops.foldl opApply (initialPages total)).map fun p => p.pageNumber) := by
  refine ⟨map_pageNumber_opApply, ?_⟩
  intro total ops
  have h := (map_pageNumber_foldl_opApply ops (initialPages total)).trans
    (map_pageNumber_initialPages total)
  refine ⟨h, ?_⟩
  rw [h]
  exact List.Pairwise.map _ (fun a b hab => by omega) (List.pairwise_lt_range total)

/-- Claim C4 (confirmed): the exporter is total — the json data has one
entry per PageRecord carrying its page number, whatever its status — and
on the two-page store `c4Store` the txt export contains the `第 1 頁` and
`第 2 頁` markers followed by page 1's literal text and page 2's
`[該頁辨識失敗]` placeholder, while the json export is exactly
`[{page 1, completed, 完成文字}, {page 2, error, null}]`. -/
theorem claim_C4_export_totality :
    (∀ pages : List GranularPageResult,
       (exportJsonData pages).map (fun e => e.page) = pages.map fun p => p.pageNumber) ∧
    (∃ pre mid post : String,
       exportTxt c4Store =
         pre ++ "第 1 頁\n完成文字" ++ mid ++ "第 2 頁\n[該頁辨識失敗]" ++ post) ∧
    exportJsonData c4Store =
      [{ page := 1, status := "completed", content := some "完成文字" },
       { page := 2, status := "error", content := none }] := by
  refine ⟨?_, ⟨"== ZenOCR 提取結果 ==\n\n", "\n--------------------\n\n",
    "\n--------------------\n", ?_⟩, ?_⟩
  · intro pages
    simp [exportJsonData, List.map_map]
  · rfl
  · rfl

/-- Claim C5 (confirmed): for a `completed` record with a cached image,
redo proceeds, without any confirmation, when its text still equals
`originalExtractedText`; when they differ, the confirmation dialog is
shown, and a declined confirmation leaves the whole state byte-for-byte
unchanged. -/
theorem claim_C5_redo_confirmation :
    ∀ (s : AppState) (page : GranularPageResult) (key : Option String) (call : OcrOutcome),
      page.status = PageStatus.completed → page.imageUrl ≠ "" →
      ((some page.extractedText = page.originalExtractedText →
          redoAsksConfirm page = false ∧
          ∀ c : Bool, handleRedo s page c key call =
            { s with pages := performOcrOnPage s.pages page.pageNumber key call }) ∧
       (some page.extractedText ≠ page.originalExtractedText →
          redoAsksConfirm page = true ∧
          handleRedo s page false key call = s)) := by
  intro s page key call hst himg
  constructor
  · intro heq
    constructor
    · simp [redoAsksConfirm, heq]
    · intro c
      simp [handleRedo, handleRedoPages, himg, heq]
  · intro hne
    constructor
    · simp [redoAsksConfirm, himg, hne, hst]
    · simp [handleRedo, handleRedoPages, himg, hne, hst]

/-- Witness for C5 at concrete records: the untouched `cleanPage` redoes
without confirmation; the hand-edited `editedPage` asks and, declined,
leaves the state unchanged. -/
theorem claim_C5_witness :
    (redoAsksConfirm cleanPage = false ∧
     handleRedo twoPageState cleanPage true (some "key") sampleCall =
       { twoPageState with
         pages := performOcrOnPage twoPageState.pages 1 (some "key") sampleCall }) ∧
    (redoAsksConfirm editedPage = true ∧
     handleRedo twoPageState editedPage false (some "key") sampleCall = twoPageState) := by
  constructor
  · have h := (claim_C5_redo_confirmation twoPageState cleanPage (some "key") sampleCall rfl
      (by decide)).1 rfl
    exact ⟨h.1, h.2 true⟩
  · exact (claim_C5_redo_confirmation twoPageState editedPage (some "key") sampleCall rfl
      (by decide)).2 (by decide)

/-- Claim C6, counterexample: the App revision without the type guard
passes a non-PDF file straight to `processPdf`, whose synchronous prefix
clears the page list and flips `isProcessing` — the state changes and no
rejection message is shown. -/
theorem claim_C6_counterexample :
    (handleFileChangeAlt settledState (some { fileType := "text/plain" })).1 ≠ settledState ∧
    (handleFileChangeAlt settledState (some { fileType := "text/plain" })).2 = none ∧
    (handleFileChangeAlt settledState (some { fileType := "text/plain" })).1.pages = [] := by
  refine ⟨?_, rfl, rfl⟩
  decide

/-- Claim C6, amended: in the App revision whose handler validates the
file type, a non-PDF selection is rejected with the alert
`請選擇正確的 PDF 檔案格式。` and the state is unchanged; the other
revision's handler performs no validation and starts processing any
selected file. -/
theorem claim_C6_reject_non_pdf (lib : Bool) (s : AppState) (f : FileInput)
    (hf : f.fileType ≠ "application/pdf") :
    handleFileChange lib s (some f) = (s, some pdfTypeAlert) := by
  simp [handleFileChange, hf]

/-- Witness for C6's amended theorem at a concrete non-PDF selection. -/
theorem claim_C6_witness :
    handleFileChange true settledState (some { fileType := "image/png" }) =
      (settledState, some pdfTypeAlert) :=
  claim_C6_reject_non_pdf true settledState { fileType := "image/png" } (by decide)

/-- Claim C8 (confirmed): redo never touches the stats (`totalPages`,
`processedPages`, `isProcessing`), never changes the number of records,
and leaves every record whose page number differs from the target
exactly as it was, at its position. -/
theorem claim_C8_redo_frame :
    ∀ (s : AppState) (page : GranularPageResult) (c : Bool) (key : Option String)
      (call : OcrOutcome),
      (handleRedo s page c key call).stats = s.stats ∧
      (handleRedo s page c key call).pages.length = s.pages.length ∧
      ∀ (i : Nat) (q : GranularPageResult), s.pages[i]? = some q →
        q.pageNumber ≠ page.pageNumber →
        (handleRedo s page c key call).pages[i]? = some q := by
  intro s page c key call
  refine ⟨rfl, ?_, ?_⟩
  · simp only [handleRedo]
    unfold handleRedoPages
    split_ifs
    · rfl
    · rfl
    · exact performOcrOnPage_length s.pages page.pageNumber key call
  · intro i q hq hne
    simp only [handleRedo]
    unfold handleRedoPages
    split_ifs
    · exact hq
    · exact hq
    · exact getElem?_performOcrOnPage_ne hq hne

/-- Witness for C8: redoing page 1 leaves page 2's record untouched. -/
theorem claim_C8_witness :
    (handleRedo twoPageState cleanPage true (some "key") sampleCall).pages[1]? =
      some editedPage :=
  (claim_C8_redo_frame twoPageState cleanPage true (some "key") sampleCall).2.2 1
    editedPage rfl (by decide)

/-- Claim C9 (confirmed): the text edit overwrites only the matching
record's `extractedText` — its status, `originalExtractedText`,
page number and image are untouched — and every other record is left
unchanged at its position. -/
theorem claim_C9_edit_frame :
    ∀ (pages : List GranularPageResult) (n : Nat) (t : String) (i : Nat)
      (q : GranularPageResult),
      pages[i]? = some q →
      ((q.pageNumber = n →
          (handleTextChange pages n t)[i]? = some { q with extractedText := t }) ∧
       (q.pageNumber ≠ n → (handleTextChange pages n t)[i]? = some q)) := by
  intro pages n t i q hq
  constructor
  · intro h
    simp only [handleTextChange]
    rw [getElem?_updateByNumber n _ hq, if_pos h]
  · intro h
    simp only [handleTextChange]
    rw [getElem?_updateByNumber n _ hq, if_neg h]

/-- Witness for C9: editing page 1's text rewrites only that field of
record 1 and leaves record 2 untouched. -/
theorem claim_C9_witness :
    (handleTextChange twoPageState.pages 1 "改")[0]? =
      some { cleanPage with extractedText := "改" } ∧
    (handleTextChange twoPageState.pages 1 "改")[1]? = some editedPage :=
  ⟨(claim_C9_edit_frame twoPageState.pages 1 "改" 0 cleanPage rfl).1 rfl,
   (claim_C9_edit_frame twoPageState.pages 1 "改" 1 editedPage rfl).2 (by decide)⟩

/-- Claim C10 (confirmed): whenever OCR begins for a page, the matching
record is first reset to `processing` with its displayed text erased —
whatever it held (prior OCR output, a user edit, or an error message) —
and `performOcrOnPage` is exactly that reset followed by the settle step;
additionally, redo on a record with an empty `imageUrl` is a silent
no-op: no state change and no confirmation dialog. -/
theorem claim_C10_reset_and_noop :
    (∀ (pages : List GranularPageResult) (n i : Nat) (q : GranularPageResult),
       pages[i]? = some q → q.pageNumber = n →
       (setProcessing pages n)[i]? =
         some { q with status := PageStatus.processing, extractedText := "" }) ∧
    (∀ (pages : List GranularPageResult) (n : Nat) (key : Option String) (call : OcrOutcome),
       performOcrOnPage pages n key call = ocrSettle (setProcessing pages n) n key call) ∧
    (∀ (s : AppState) (page : GranularPageResult) (c : Bool) (key : Option String)
       (call : OcrOutcome), page.imageUrl = "" →
       handleRedo s page c key call = s ∧ redoAsksConfirm page = false) := by
  refine ⟨?_, fun _ _ _ _ => rfl, ?_⟩
  · intro pages n i q hq heq
    simp only [setProcessing]
    rw [getElem?_updateByNumber n _ hq, if_pos heq]
  · intro s page c key call h
    constructor
    · simp [handleRedo, handleRedoPages, h]
    · simp [redoAsksConfirm, h]

/-- Witness for C10: resetting `c4Store`'s completed page 1 erases its
text on entry to `processing`, and a redo on a record with no cached
image changes nothing. -/
theorem claim_C10_witness :
    (setProcessing c4Store 1)[0]? =
      some { pageNumber := 1, imageUrl := "data:1", extractedText := "",
             originalExtractedText := some "完成文字", status := PageStatus.processing } ∧
    handleRedo twoPageState
      { pageNumber := 3, imageUrl := "", extractedText := "遺留文字",
        originalExtractedText := some "遺留文字", status := PageStatus.completed }
      true (some "key") sampleCall = twoPageState := by
  constructor
  · exact claim_C10_reset_and_noop.1 c4Store 1 0
      { pageNumber := 1, imageUrl := "data:1", extractedText := "完成文字",
        originalExtractedText := some "完成文字", status := PageStatus.completed } rfl rfl
  · exact (claim_C10_reset_and_noop.2.2 twoPageState _ true (some "key") sampleCall rfl).1

end ZenOCR
